import Mathlib

/-!
Shallow embedding of `src/protocol.py` (klipper_protocol): message framing
with CRC validation, the signed VLQ integer codec, and the paged-read
`identify` session of the `Device` class.

Bytes are modelled as `Nat` (Python `bytes` elements are in `[0, 255]`),
byte strings as `List Nat`, Python `int` as `Int` (or `Nat` where the source
value is provably non-negative), and Python exceptions as the `PyErr` type
below.  Fallible code returns `Except PyErr _`.
-/

set_option maxRecDepth 100000

/-- Python exceptions raised by the code under `src/protocol.py`:
`ValueError` and `AssertionError` carry their message text, `IndexError`
models an out-of-range `bytes` index, `structError` models `struct.error`
raised by `Struct('BB').pack` when a field does not fit in one byte. -/
inductive PyErr where
  | valueError (msg : String)
  | assertionError (msg : String)
  | indexError
  | structError
deriving DecidableEq, Repr

instance {ε α : Type} [DecidableEq ε] [DecidableEq α] : DecidableEq (Except ε α) := fun a b =>
  match a, b with
  | .error x, .error y =>
    if h : x = y then .isTrue (by rw [h]) else .isFalse (fun hh => by cases hh; exact h rfl)
  | .ok x, .ok y =>
    if h : x = y then .isTrue (by rw [h]) else .isFalse (fun hh => by cases hh; exact h rfl)
  | .error _, .ok _ => .isFalse (fun hh => by cases hh)
  | .ok _, .error _ => .isFalse (fun hh => by cases hh)

/-- Reversal of the low `w` bits of `n` (bit `i` of the input becomes bit
`w - 1 - i` of the output); used for the reflected-input/reflected-output
CRC configuration. -/
def reflectBits (w n : Nat) : Nat :=
  (List.range w).foldl (fun acc i => acc * 2 + (n >>> i) % 2) 0

/-- Processing of one input byte by the CRC engine: the byte is reflected
(reflected-input configuration) and fed into a width-16 MSB-first shift
register with polynomial 0x1021. -/
def crcByteStep (reg b : Nat) : Nat :=
  let reg := reg ^^^ (reflectBits 8 (b % 256) <<< 8)
  (List.range 8).foldl (fun r _ =>
    if r &&& 0x8000 ≠ 0 then ((r <<< 1) ^^^ 0x1021) &&& 0xFFFF else (r <<< 1) &&& 0xFFFF) reg

/-- Modelled from the spec: the external CRC Engine collaborator
(`crc.Calculator` configured in `src/protocol.py` lines 14-16 with width 16,
polynomial 0x1021, initial value 0xFFFF, reflected input and reflected
output); `checksum data` is the 16-bit checksum of `data`.  The model is the
textbook algorithm for exactly that configuration (CRC-16/MCRF4XX); its
check value on the bytes of "123456789" is 0x6F91, proved below. -/
def checksum (data : List Nat) : Nat :=
  reflectBits 16 (data.foldl crcByteStep 0xFFFF)

/-- Embedding of `_crc_struct.pack` (`Struct('>H')`): a 16-bit value as two
big-endian bytes. -/
def crcPack (c : Nat) : List Nat :=
  [c / 256 % 256, c % 256]

/-- Embedding of `msg_build` (src/protocol.py lines 19-22).
`Struct('BB').pack(len(data) + 5, ...)` raises `struct.error` when
`len(data) + 5` exceeds 255, modelled by the `structError` branch. -/
def msg_build (data : List Nat) (sequence_id : Nat) : Except PyErr (List Nat) :=
  if 255 < data.length + 5 then .error .structError
  else
    let msg := [data.length + 5, 0x10 ||| (sequence_id &&& 0x0F)] ++ data
    .ok (msg ++ crcPack (checksum msg) ++ [0x7E])

/-- Python sequence indexing `l[i]` on a byte string: a negative index is
taken from the end, an index out of range raises `IndexError`. -/
def pyGet (l : List Nat) (i : Int) : Except PyErr Nat :=
  let j : Int := if i < 0 then i + l.length else i
  if j < 0 then .error .indexError
  else
    match l[j.toNat]? with
    | some v => .ok v
    | none => .error .indexError

/-- Embedding of `msg_parse` (src/protocol.py lines 25-34).  Python slices
`msg[:-3]`, `msg[-3:-1]` and `msg[2:-3]` are rendered with `take`/`drop`
(whose clamping matches Python slice clamping); each single-byte index goes
through `pyGet` so that a hypothetical out-of-range access is observable as
`IndexError`. -/
def msg_parse (msg : List Nat) (sequence_id : Nat) : Except PyErr (List Nat) :=
  if crcPack (checksum (msg.take (msg.length - 3))) ≠
      (msg.take (msg.length - 1)).drop (msg.length - 3) then
    .error (.valueError "Wrong CRC checksum in message")
  else
    match pyGet msg 0 with
    | .error e => .error e
    | .ok b0 =>
      if b0 ≠ msg.length then .error (.assertionError "Wrong length")
      else
        match pyGet msg 1 with
        | .error e => .error e
        | .ok b1 =>
          if b1 &&& 0xF0 ≠ 0x10 then
            .error (.assertionError "upper nibble in sequence byte is wrong")
          else
            match pyGet msg (-1) with
            | .error e => .error e
            | .ok bLast =>
              if bLast ≠ 0x7E then .error (.assertionError "sync byte is wrong")
              else if b1 &&& 0x0F ≠ sequence_id &&& 0x0F then
                .error (.valueError "Wrong sequence id (means NAK response)")
              else .ok ((msg.take (msg.length - 3)).drop 2)

/-- Fueled helper for `pyBitLength`; the fuel only guarantees structural
termination and `blGo n m` computes the full bit length whenever `m ≤ n`. -/
def blGo : Nat → Nat → Nat
  | 0, _ => 0
  | fuel + 1, m => if m = 0 then 0 else blGo fuel (m / 2) + 1

/-- Python `int.bit_length()` on a non-negative integer: the number of
binary digits of `n` (0 for 0). -/
def pyBitLength (n : Nat) : Nat := blGo n n

/-- Embedding of the `for i in range(bits // 7)` loop of `vlq_pack`
(src/protocol.py lines 40-42): each round arithmetically shifts `value`
right by 7 (Python `>> 7` on `int` is floor division by 128) and prepends
the byte `0x80 + (value & 0x7F)`. -/
def packLoop : Nat → Int → List Nat → List Nat
  | 0, _, acc => acc
  | n + 1, v, acc =>
    let v2 := v.fdiv 128
    packLoop n v2 ((0x80 + (v2.emod 128)).toNat :: acc)

/-- Embedding of `vlq_pack` (src/protocol.py lines 37-43).  Python's
`(value & 0x7F)` on an `int` is `value.emod 128`; `bit_length` of a
negative Python `int` is the bit length of its absolute value, so
`(value + 1).bit_length()` for `value < 0` is `pyBitLength (-(value+1))`. -/
def vlq_pack (value : Int) : List Nat :=
  let bits : Nat :=
    if 0 ≤ value then pyBitLength (value + 0x20).toNat - 1
    else pyBitLength (-(value + 1)).toNat + 1
  packLoop (bits / 7) value [(value.emod 128).toNat]

/-- Embedding of `vlq_unpack` (src/protocol.py lines 46-58).  The Python
`for ... else` scans for the first byte with the continuation bit clear;
if none exists (also for empty input) the `else` branch raises.  The
accumulator folds `value = (value << 7) + (byte & 0x7F)` over the consumed
bytes, and the sign-bias correction subtracts `0x80 << (pos * 7)` when bits
5 and 6 of the first byte are both set. -/
def vlq_unpack (data : List Nat) : Except PyErr (Int × List Nat) :=
  match data.findIdx? (fun b => b &&& 0x80 == 0) with
  | none => .error (.valueError "last byte has MSB set")
  | some pos =>
    let value : Nat := (data.take (pos + 1)).foldl (fun acc b => (acc <<< 7) + (b &&& 0x7F)) 0
    let value2 : Int :=
      if data.headD 0 &&& 0x60 == 0x60 then (value : Int) - ((0x80 <<< (pos * 7) : Nat) : Int)
      else (value : Int)
    .ok (value2, data.drop (pos + 1))

/-- Simulated half-duplex transport for the `Device` session: `pending`
holds the scripted device responses, one served (appended to `input`) per
request written; `input` holds the bytes currently readable. -/
structure SimSerial where
  pending : List (List Nat)
  input : List Nat
deriving DecidableEq, Repr

/-- Transport `read(n)`: return the next `min n` available bytes and
consume them from the input. -/
def SimSerial.read (s : SimSerial) (n : Nat) : List Nat × SimSerial :=
  (s.input.take n, { s with input := s.input.drop n })

/-- Transport `reset_input_buffer()`: discard unread bytes. -/
def SimSerial.reset_input_buffer (s : SimSerial) : SimSerial :=
  { s with input := [] }

/-- Transport `write(msg)`: writing a request makes the simulated device
serve its next scripted response (the written bytes themselves are consumed
by the device). -/
def SimSerial.write (s : SimSerial) (msg : List Nat) : SimSerial :=
  match msg, s.pending with
  | _, [] => s
  | _, r :: rest => { pending := rest, input := s.input ++ r }

/-- Embedding of `Device.receive` (src/protocol.py lines 66-68): read one
byte to learn the declared frame length, then read `msg[0] - 1` more bytes;
on an empty first read, Python's `msg[0]` raises `IndexError`. -/
def receive (s : SimSerial) : Except PyErr (List Nat) × SimSerial :=
  let r1 := s.read 1
  match r1.1 with
  | [] => (.error .indexError, r1.2)
  | b :: _ =>
    let r2 := r1.2.read (b - 1)
    (.ok (r1.1 ++ r2.1), r2.2)

/-- Observable result of one iteration of the `Device.identify` loop body:
the transport and session state after the iteration (`sequence_id` and
`address` are the mutated `self._sequence_id` and `address`), the request
frame written, the expected sequence id passed to `msg_parse`
(`parse_seq`), and the outcome of `msg_parse(self.receive(), ...)`. -/
structure StepOut where
  serial : SimSerial
  sequence_id : Nat
  address : Nat
  req_msg : List Nat
  parse_seq : Nat
  resp : Except PyErr (List Nat)
deriving DecidableEq, Repr

/-- Embedding of one iteration of the `while True` loop body of
`Device.identify` (src/protocol.py lines 74-80), up to and including the
`msg_parse` call: reset the input buffer, build the request
`b'\x01' + vlq_pack(address) + b'\x28'` framed with the current sequence
counter, increment the counter, advance the address by 0x28, write the
request, then parse the received frame against `self._sequence_id` (which
at that point is the incremented counter). -/
def identifyStep (serial : SimSerial) (sequence_id address : Nat) : Except PyErr StepOut :=
  let serial := serial.reset_input_buffer
  match msg_build ([0x01] ++ vlq_pack (address : Int) ++ [0x28]) sequence_id with
  | .error e => .error e
  | .ok req_msg =>
    let sequence_id := sequence_id + 1
    let address := address + 0x28
    let serial := serial.write req_msg
    let rcv := receive serial
    let resp := rcv.1.bind (fun raw => msg_parse raw sequence_id)
    .ok { serial := rcv.2, sequence_id := sequence_id, address := address,
          req_msg := req_msg, parse_seq := sequence_id, resp := resp }

/-- Embedding of the full `while True` loop of `Device.identify`
(src/protocol.py lines 71-82), stopping before the external
`zlib.decompress` / `json.loads` collaborators.  Arguments: fuel (the loop
has no intrinsic bound), transport, `self._sequence_id`, `address`, the
accumulation buffer `data`, and the number of completed rounds.  Returns
`ok none` when fuel runs out, otherwise the accumulated buffer, the number
of requests issued, and the final `self._sequence_id` and `address`.  The
exit test is the source's `len(msg_resp) + 5 - len(req_msg) != 0x28`,
computed in `Int` exactly as Python computes it. -/
def identifyPages : Nat → SimSerial → Nat → Nat → List Nat → Nat →
    Except PyErr (Option (List Nat × Nat × Nat × Nat))
  | 0, _, _, _, _, _ => .ok none
  | fuel + 1, serial, sequence_id, address, data, rounds =>
    match identifyStep serial sequence_id address with
    | .error e => .error e
    | .ok out =>
      match out.resp with
      | .error e => .error e
      | .ok msg_resp =>
        let data2 := data ++ msg_resp.drop (out.req_msg.length - 5)
        if ((msg_resp.length : Int) + 5 - (out.req_msg.length : Int)) ≠ 0x28 then
          .ok (some (data2, rounds + 1, out.sequence_id, out.address))
        else
          identifyPages fuel out.serial out.sequence_id out.address data2 (rounds + 1)

/-- Scenario scaffolding: the frame built by `msg_build` for a payload that
fits (used only to script concrete transports in theorems). -/
def frameOf (data : List Nat) (sequence_id : Nat) : List Nat :=
  match msg_build data sequence_id with
  | .ok f => f
  | .error _ => []

/-- Check value of the modelled CRC engine: the CRC-16 configuration
(polynomial 0x1021, init 0xFFFF, reflected input and output) maps the ASCII
bytes of "123456789" to 0x6F91, the published check value for this
configuration. -/
theorem checksum_check_value : checksum [49, 50, 51, 52, 53, 54, 55, 56, 57] = 0x6F91 := by
  decide

/-! ### Helper lemmas about the control byte and Python indexing -/

theorem and_fifteen_eq_mod (s : Nat) : s &&& 15 = s % 16 :=
  Nat.and_pow_two_sub_one_eq_mod s 4

theorem and_fifteen_le (s : Nat) : s &&& 15 ≤ 15 :=
  Nat.and_le_right

theorem control_and_high (x : Nat) (h : x ≤ 15) : (16 ||| x) &&& 0xF0 = 0x10 := by
  interval_cases x <;> decide

theorem control_and_low (x : Nat) (h : x ≤ 15) : (16 ||| x) &&& 0x0F = x := by
  interval_cases x <;> decide

theorem crcPack_length (c : Nat) : (crcPack c).length = 2 := rfl

theorem pyGet_zero (a : Nat) (l : List Nat) : pyGet (a :: l) 0 = .ok a := by
  simp [pyGet]

theorem pyGet_one (a b : Nat) (l : List Nat) : pyGet (a :: b :: l) 1 = .ok b := by
  simp [pyGet]

theorem pyGet_last (l : List Nat) (x : Nat) : pyGet (l ++ [x]) (-1) = .ok x := by
  unfold pyGet
  have hj : (if (-1 : Int) < 0 then -1 + ((l ++ [x]).length : Int) else -1) = (l.length : Int) := by
    simp [List.length_append]
  rw [hj]
  have hnn : ¬ ((l.length : Int) < 0) := by omega
  rw [if_neg hnn]
  have htn : ((l.length : Int)).toNat = l.length := by omega
  rw [htn, List.getElem?_append_right (Nat.le_refl _)]
  simp

theorem take_cons2 (a b : Nat) (l : List Nat) (n : Nat) :
    (a :: b :: l).take (n + 2) = a :: b :: l.take n := rfl

theorem drop_cons2 (a b : Nat) (l : List Nat) (n : Nat) :
    (a :: b :: l).drop (n + 2) = l.drop n := rfl

/-! ### The frame round-trip: `msg_parse` inverts `msg_build` -/

theorem msg_build_ok (p : List Nat) (s : Nat) (h : p.length ≤ 250) :
    msg_build p s = .ok ((p.length + 5) :: (0x10 ||| (s &&& 0x0F)) ::
      (p ++ (crcPack (checksum ((p.length + 5) :: (0x10 ||| (s &&& 0x0F)) :: p)) ++ [0x7E]))) := by
  unfold msg_build
  rw [if_neg (by omega)]
  simp

theorem msg_parse_good_frame (p : List Nat) (s L : Nat) (crc : List Nat)
    (hL : L = p.length + 5)
    (hcrc : crc = crcPack (checksum (L :: (0x10 ||| (s &&& 0x0F)) :: p))) :
    msg_parse (L :: (0x10 ||| (s &&& 0x0F)) :: (p ++ (crc ++ [0x7E]))) s = .ok p := by
  have hs15 : s &&& 0x0F ≤ 15 := and_fifteen_le s
  subst hL
  have hcrclen : crc.length = 2 := by rw [hcrc]; exact crcPack_length _
  generalize hC : 0x10 ||| (s &&& 0x0F) = C
  rw [hC] at hcrc
  have hChigh : C &&& 0xF0 = 0x10 := by rw [← hC]; exact control_and_high _ hs15
  have hClow : C &&& 0x0F = s &&& 0x0F := by rw [← hC]; exact control_and_low _ hs15
  have hglen : ((p.length + 5) :: C :: (p ++ (crc ++ [0x7E]))).length = p.length + 5 := by
    simp [List.length_append, hcrclen]
  have hg2 : (p.length + 5) :: C :: (p ++ (crc ++ [0x7E])) =
      ((p.length + 5) :: C :: (p ++ crc)) ++ [0x7E] := by
    simp [List.append_assoc]
  have t3 : ((p.length + 5) :: C :: (p ++ (crc ++ [0x7E]))).take
      (((p.length + 5) :: C :: (p ++ (crc ++ [0x7E]))).length - 3) = (p.length + 5) :: C :: p := by
    rw [hglen, show p.length + 5 - 3 = p.length + 2 from by omega, take_cons2, List.take_left]
  have tslice : (((p.length + 5) :: C :: (p ++ (crc ++ [0x7E]))).take
        (((p.length + 5) :: C :: (p ++ (crc ++ [0x7E]))).length - 1)).drop
        (((p.length + 5) :: C :: (p ++ (crc ++ [0x7E]))).length - 3) = crc := by
    rw [hglen, show p.length + 5 - 1 = p.length + 4 from by omega,
      show p.length + 5 - 3 = p.length + 2 from by omega, hg2,
      List.take_left' (by simp [hcrclen]), drop_cons2, List.drop_left]
  have hlast : pyGet ((p.length + 5) :: C :: (p ++ (crc ++ [0x7E]))) (-1) = .ok 0x7E := by
    rw [hg2]; exact pyGet_last _ _
  unfold msg_parse
  rw [t3, tslice]
  rw [if_neg (by rw [← hcrc]; simp)]
  rw [pyGet_zero]
  simp only [hglen]
  rw [if_neg (by simp)]
  rw [pyGet_one]
  simp only []
  rw [if_neg (by simp [hChigh])]
  rw [hlast]
  simp only []
  rw [if_neg (by simp)]
  rw [if_neg (by simp [hClow])]
  simp

theorem parse_build (p : List Nat) (s : Nat) (h : p.length ≤ 250) (f : List Nat)
    (hf : msg_build p s = .ok f) : msg_parse f s = .ok p := by
  rw [msg_build_ok p s h] at hf
  injection hf with hf
  subst hf
  exact msg_parse_good_frame p s (p.length + 5)
    (crcPack (checksum ((p.length + 5) :: (0x10 ||| (s &&& 0x0F)) :: p))) rfl rfl

theorem receive_frame (pend : List (List Nat)) (b : Nat) (t rest : List Nat)
    (hb : b = t.length + 1) :
    receive ⟨pend, (b :: t) ++ rest⟩ = (.ok (b :: t), ⟨pend, rest⟩) := by
  unfold receive SimSerial.read
  simp [hb, List.take_left', List.drop_left']

theorem frameOf_eq (p : List Nat) (s : Nat) (h : p.length ≤ 250) :
    frameOf p s = (p.length + 5) :: (0x10 ||| (s &&& 0x0F)) ::
      (p ++ (crcPack (checksum ((p.length + 5) :: (0x10 ||| (s &&& 0x0F)) :: p)) ++ [0x7E])) := by
  unfold frameOf
  rw [msg_build_ok p s h]

theorem frameOf_length (p : List Nat) (s : Nat) (h : p.length ≤ 250) :
    (frameOf p s).length = p.length + 5 := by
  rw [frameOf_eq p s h]
  simp [crcPack]

theorem identifyStep_script (pend : List (List Nat)) (inp q : List Nat) (s a : Nat)
    (hreq : ([0x01] ++ vlq_pack (a : Int) ++ [0x28]).length ≤ 250)
    (hq : q.length ≤ 250) :
    identifyStep ⟨frameOf q (s + 1) :: pend, inp⟩ s a =
      .ok { serial := ⟨pend, []⟩, sequence_id := s + 1, address := a + 0x28,
            req_msg := frameOf ([0x01] ++ vlq_pack (a : Int) ++ [0x28]) s,
            parse_seq := s + 1, resp := .ok q } := by
  have hfq : msg_build q (s + 1) = .ok (frameOf q (s + 1)) := by
    rw [msg_build_ok q (s + 1) hq, frameOf_eq q (s + 1) hq]
  have hparse : msg_parse (frameOf q (s + 1)) (s + 1) = .ok q := parse_build q (s + 1) hq _ hfq
  have hrec : receive ⟨pend, frameOf q (s + 1)⟩ = (.ok (frameOf q (s + 1)), ⟨pend, []⟩) := by
    rw [frameOf_eq q (s + 1) hq]
    have h2 := receive_frame pend (q.length + 5)
      ((0x10 ||| ((s + 1) &&& 0x0F)) ::
        (q ++ (crcPack (checksum ((q.length + 5) :: (0x10 ||| ((s + 1) &&& 0x0F)) :: q)) ++
          [0x7E]))) []
      (by simp [crcPack])
    rw [List.append_nil] at h2
    exact h2
  rw [frameOf_eq _ s hreq]
  unfold identifyStep SimSerial.reset_input_buffer SimSerial.write
  rw [msg_build_ok _ s hreq]
  simp only [List.nil_append]
  rw [hrec]
  simp [hparse, Except.bind]

theorem identifyPages_round (fuel : Nat) (pend : List (List Nat)) (inp data q : List Nat)
    (s a rounds : Nat)
    (hreq : ([0x01] ++ vlq_pack (a : Int) ++ [0x28]).length ≤ 250)
    (hq : q.length ≤ 250) :
    identifyPages (fuel + 1) ⟨frameOf q (s + 1) :: pend, inp⟩ s a data rounds =
      if (q.length : Int) - (([0x01] ++ vlq_pack (a : Int) ++ [0x28]).length : Int) ≠ 0x28 then
        .ok (some (data ++ q.drop ([0x01] ++ vlq_pack (a : Int) ++ [0x28]).length,
          rounds + 1, s + 1, a + 0x28))
      else
        identifyPages fuel ⟨pend, []⟩ (s + 1) (a + 0x28)
          (data ++ q.drop ([0x01] ++ vlq_pack (a : Int) ++ [0x28]).length) (rounds + 1) := by
  conv_lhs => rw [identifyPages]
  rw [identifyStep_script pend inp q s a hreq hq]
  have hlen : (frameOf ([0x01] ++ vlq_pack (a : Int) ++ [0x28]) s).length =
      ([0x01] ++ vlq_pack (a : Int) ++ [0x28]).length + 5 :=
    frameOf_length _ s hreq
  simp only [hlen]
  have hdrop : ([0x01] ++ vlq_pack (a : Int) ++ [0x28]).length + 5 - 5 =
      ([0x01] ++ vlq_pack (a : Int) ++ [0x28]).length := by omega
  have hcond : (((q.length : Int) + 5 -
      ((([0x01] ++ vlq_pack (a : Int) ++ [0x28]).length + 5 : Nat) : Int) ≠ 0x28)) ↔
      ((q.length : Int) - (([0x01] ++ vlq_pack (a : Int) ++ [0x28]).length : Int) ≠ 0x28) := by
    push_cast
    constructor <;> intro h <;> omega
  simp only [hdrop]
  rw [if_congr hcond rfl rfl]

theorem identifyStep_shape (serial : SimSerial) (s a : Nat) (out : StepOut)
    (h : identifyStep serial s a = .ok out) :
    out.sequence_id = s + 1 ∧ out.parse_seq = s + 1 ∧
    out.req_msg.getD 1 0 = 0x10 ||| (s &&& 0x0F) := by
  unfold identifyStep at h
  cases hb : msg_build ([0x01] ++ vlq_pack (a : Int) ++ [0x28]) s with
  | error e =>
    rw [hb] at h
    simp at h
  | ok req =>
    rw [hb] at h
    have hreq : req.getD 1 0 = 0x10 ||| (s &&& 0x0F) := by
      unfold msg_build at hb
      by_cases hc : 255 < ([0x01] ++ vlq_pack (a : Int) ++ [0x28]).length + 5
      · rw [if_pos hc] at hb; simp at hb
      · rw [if_neg hc] at hb
        injection hb with hb
        subst hb
        simp
    injection h with h
    subst h
    exact ⟨rfl, rfl, hreq⟩

theorem crc_pass_length (msg : List Nat)
    (h : crcPack (checksum (msg.take (msg.length - 3))) =
      (msg.take (msg.length - 1)).drop (msg.length - 3)) : 3 ≤ msg.length := by
  have hl := congrArg List.length h
  simp [crcPack, List.length_drop, List.length_take] at hl
  omega

theorem pyGet_ok_of_nonneg (l : List Nat) (i : Int) (h0 : 0 ≤ i) (h : i.toNat < l.length) :
    ∃ v, pyGet l i = .ok v := by
  unfold pyGet
  rw [if_neg (not_lt.mpr h0)]
  rw [if_neg (not_lt.mpr h0)]
  rw [List.getElem?_eq_getElem h]
  exact ⟨_, rfl⟩

theorem pyGet_neg_one_ok (l : List Nat) (h : 0 < l.length) :
    ∃ v, pyGet l (-1) = .ok v := by
  unfold pyGet
  have hin : (if (-1 : Int) < 0 then -1 + (l.length : Int) else -1) = -1 + (l.length : Int) :=
    if_pos (by norm_num)
  rw [hin]
  rw [if_neg (by omega)]
  have h2 : ((-1 : Int) + l.length).toNat < l.length := by omega
  rw [List.getElem?_eq_getElem h2]
  exact ⟨_, rfl⟩

theorem msg_parse_short (msg : List Nat) (s : Nat) (h : msg.length < 3) :
    msg_parse msg s = .error (.valueError "Wrong CRC checksum in message") := by
  unfold msg_parse
  rw [if_pos]
  intro heq
  exact absurd (crc_pass_length msg heq) (by omega)

theorem msg_parse_error_cases (msg : List Nat) (s : Nat) (e : PyErr)
    (h : msg_parse msg s = .error e) :
    e = .valueError "Wrong CRC checksum in message" ∨
    e = .assertionError "Wrong length" ∨
    e = .assertionError "upper nibble in sequence byte is wrong" ∨
    e = .assertionError "sync byte is wrong" ∨
    e = .valueError "Wrong sequence id (means NAK response)" := by
  unfold msg_parse at h
  split at h
  · injection h with h; exact Or.inl h.symm
  · rename_i hcrc
    have hlen : 3 ≤ msg.length := crc_pass_length msg (by simpa using hcrc)
    split at h
    · rename_i e0 heq0
      obtain ⟨v0, hv0⟩ := pyGet_ok_of_nonneg msg 0 (by norm_num) (by omega)
      rw [hv0] at heq0; cases heq0
    · rename_i b0 heq0
      split at h
      · injection h with h; exact Or.inr (Or.inl h.symm)
      · split at h
        · rename_i e1 heq1
          obtain ⟨v1, hv1⟩ := pyGet_ok_of_nonneg msg 1 (by norm_num) (by omega)
          rw [hv1] at heq1; cases heq1
        · rename_i b1 heq1
          split at h
          · injection h with h; exact Or.inr (Or.inr (Or.inl h.symm))
          · split at h
            · rename_i el heql
              obtain ⟨vl, hvl⟩ := pyGet_neg_one_ok msg (by omega)
              rw [hvl] at heql; cases heql
            · rename_i bl heql
              split at h
              · injection h with h; exact Or.inr (Or.inr (Or.inr (Or.inl h.symm)))
              · split at h
                · injection h with h; exact Or.inr (Or.inr (Or.inr (Or.inr h.symm)))
                · cases h

theorem msg_parse_not_indexError (msg : List Nat) (s : Nat) :
    msg_parse msg s ≠ .error .indexError := by
  intro h
  rcases msg_parse_error_cases msg s .indexError h with h | h | h | h | h <;> cases h

/-- Kind of a modelled Python exception: the Python class name, which is
what an `except` clause can dispatch on (the attached message text is not
part of the kind). -/
def pyErrKind : PyErr → String
  | .valueError _ => "ValueError"
  | .assertionError _ => "AssertionError"
  | .indexError => "IndexError"
  | .structError => "struct.error"

/-! ### Claims C1, C7, C8: the VLQ codec -/

/-- Claim C1 (code_bug evidence): the VLQ round-trip guarantee fails on the
code at the concrete input 12288: `vlq_pack 12288` is `[0xE0, 0x00]`, which
`vlq_unpack` decodes to `-4096`, not `12288`.  The positive-value group
count `(value + 0x20).bit_length() - 1` under-counts at the two-byte
boundary, so the top byte `0xE0` has bits 5 and 6 set and triggers the
decoder's sign-bias correction. -/
theorem claim_C1_roundtrip_failure :
    vlq_pack 12288 = [0xE0, 0x00] ∧
    vlq_unpack (vlq_pack 12288) = .ok (-4096, []) ∧ ((-4096 : Int) ≠ 12288) := by
  decide

/-- Claim C7: for every non-empty byte sequence in which every byte has the
high (continuation) bit set, `vlq_unpack` fails with the truncated-sequence
error (`ValueError('last byte has MSB set')`) and returns no value. -/
theorem claim_C7_truncation (data : List Nat) (_hne : data ≠ [])
    (hall : ∀ b ∈ data, b &&& 0x80 ≠ 0) :
    vlq_unpack data = .error (.valueError "last byte has MSB set") := by
  unfold vlq_unpack
  have hnone : data.findIdx? (fun b => b &&& 0x80 == 0) = none := by
    rw [List.findIdx?_eq_none_iff]
    intro x hx
    simpa using hall x hx
  rw [hnone]

/-- Witness for C7 at the concrete input `[0x80]`. -/
theorem claim_C7_witness :
    vlq_unpack [0x80] = .error (.valueError "last byte has MSB set") :=
  claim_C7_truncation [0x80] (by decide) (by decide)

/-- Claim C8: the three concrete VLQ scenarios: 0 encodes to `[0x00]` and
decodes back, -1 encodes to `[0x7F]` and decodes back, 127 encodes to
`[0x80, 0x7F]` and decodes back, each with empty remainder. -/
theorem claim_C8_concrete :
    vlq_pack 0 = [0x00] ∧ vlq_unpack [0x00] = .ok (0, []) ∧
    vlq_pack (-1) = [0x7F] ∧ vlq_unpack [0x7F] = .ok (-1, []) ∧
    vlq_pack 127 = [0x80, 0x7F] ∧ vlq_unpack [0x80, 0x7F] = .ok (127, []) := by
  decide

/-! ### Claims C4, C5, C10: the message framer -/

/-- Claim C4 counterexample: the frame round-trip does not hold for every
payload: for a payload of 251 zero bytes, `msg_build` itself fails with
`struct.error` (the length byte `len(data) + 5 = 256` does not fit in the
`B` field of `Struct('BB')`), so `msg_parse(msg_build(p, s), s)` does not
return the payload. -/
theorem claim_C4_counterexample :
    (msg_build (List.replicate 251 0) 0).bind (fun f => msg_parse f 0) = .error .structError ∧
    (msg_build (List.replicate 251 0) 0).bind (fun f => msg_parse f 0) ≠
      .ok (List.replicate 251 0) := by
  decide

/-- Claim C4 as amended: for every payload of at most 250 bytes and every
sequence id `s` in `[0, 15]`, `msg_parse (msg_build p s) s` succeeds and
returns exactly `p`. -/
theorem claim_C4_amended (p : List Nat) (s : Nat) (hp : p.length ≤ 250) (_hs : s ≤ 15) :
    (msg_build p s).bind (fun f => msg_parse f s) = .ok p := by
  rw [msg_build_ok p s hp]
  show msg_parse ((p.length + 5) :: (0x10 ||| (s &&& 0x0F)) ::
    (p ++ (crcPack (checksum ((p.length + 5) :: (0x10 ||| (s &&& 0x0F)) :: p)) ++ [0x7E]))) s
    = .ok p
  exact msg_parse_good_frame p s (p.length + 5)
    (crcPack (checksum ((p.length + 5) :: (0x10 ||| (s &&& 0x0F)) :: p))) rfl rfl

/-- Witness for the amended C4 at the payload `[1, 2, 3]` and sequence
id 5. -/
theorem claim_C4_witness :
    (msg_build [1, 2, 3] 5).bind (fun f => msg_parse f 5) = .ok [1, 2, 3] :=
  claim_C4_amended [1, 2, 3] 5 (by decide) (by decide)

/-- Claim C5 counterexample: a sequence-mismatch failure and a checksum
failure of `msg_parse` are both `ValueError` — the same Python exception
class — so a caller dispatching on the exception kind cannot tell them
apart.  The first input is the valid empty-payload frame for sequence id 0
parsed against expected id 1; the second is the same frame with one CRC
byte corrupted, parsed against id 0. -/
theorem claim_C5_counterexample :
    msg_parse (frameOf [] 0) 1 = .error (.valueError "Wrong sequence id (means NAK response)") ∧
    msg_parse ((frameOf [] 0).set 2 ((((frameOf [] 0).getD 2 0) + 1) % 256)) 0 =
      .error (.valueError "Wrong CRC checksum in message") ∧
    pyErrKind (.valueError "Wrong sequence id (means NAK response)") =
      pyErrKind (.valueError "Wrong CRC checksum in message") := by
  decide

/-- Claim C5 as amended: every `msg_parse` failure is a `ValueError` or an
`AssertionError`; the structural failures (wrong declared length, control
marker, sync byte) are `AssertionError`, so they are kind-distinguishable
from the `ValueError` failures, but a CRC mismatch and a sequence mismatch
are both `ValueError` and are distinguished only by their message text. -/
theorem claim_C5_amended (msg : List Nat) (s : Nat) (e : PyErr)
    (h : msg_parse msg s = .error e) :
    (pyErrKind e = "ValueError" ∨ pyErrKind e = "AssertionError") ∧
    (pyErrKind e = "ValueError" →
      e = .valueError "Wrong CRC checksum in message" ∨
      e = .valueError "Wrong sequence id (means NAK response)") ∧
    (pyErrKind e = "AssertionError" →
      e = .assertionError "Wrong length" ∨
      e = .assertionError "upper nibble in sequence byte is wrong" ∨
      e = .assertionError "sync byte is wrong") := by
  rcases msg_parse_error_cases msg s e h with h1 | h1 | h1 | h1 | h1 <;>
    subst h1 <;> simp [pyErrKind]

/-- Witness for the amended C5 at the concrete sequence-mismatch input
(valid empty-payload frame for id 0, parsed against id 1). -/
theorem claim_C5_witness :
    (pyErrKind (.valueError "Wrong sequence id (means NAK response)") = "ValueError" ∨
      pyErrKind (.valueError "Wrong sequence id (means NAK response)") = "AssertionError") ∧
    (pyErrKind (.valueError "Wrong sequence id (means NAK response)") = "ValueError" →
      PyErr.valueError "Wrong sequence id (means NAK response)" =
        .valueError "Wrong CRC checksum in message" ∨
      PyErr.valueError "Wrong sequence id (means NAK response)" =
        .valueError "Wrong sequence id (means NAK response)") ∧
    (pyErrKind (.valueError "Wrong sequence id (means NAK response)") = "AssertionError" →
      PyErr.valueError "Wrong sequence id (means NAK response)" =
        .assertionError "Wrong length" ∨
      PyErr.valueError "Wrong sequence id (means NAK response)" =
        .assertionError "upper nibble in sequence byte is wrong" ∨
      PyErr.valueError "Wrong sequence id (means NAK response)" =
        .assertionError "sync byte is wrong") :=
  claim_C5_amended (frameOf [] 0) 1 _ (by decide)

/-- Claim C10: `msg_parse` is total on arbitrary inputs: it never fails
with `IndexError` (no out-of-bounds access), and every input shorter than
3 bytes fails the CRC comparison (the embedded-CRC slice is shorter than
the 2 packed CRC bytes) before any individual byte is indexed. -/
theorem claim_C10_total (msg : List Nat) (s : Nat) :
    msg_parse msg s ≠ .error .indexError ∧
    (msg.length < 3 → msg_parse msg s = .error (.valueError "Wrong CRC checksum in message")) :=
  ⟨msg_parse_not_indexError msg s, fun h => msg_parse_short msg s h⟩

/-- Witness for C10 at the one-byte input `[0x01]`. -/
theorem claim_C10_witness :
    msg_parse [0x01] 0 = .error (.valueError "Wrong CRC checksum in message") :=
  (claim_C10_total [0x01] 0).2 (by decide)

/-! ### Claims C2, C9: the sequence counter in `Device.identify` -/

/-- Claim C2 counterexample: in the first iteration of `identify` starting
from the initial session state (`_sequence_id = 0`), the expected sequence
id passed to `msg_parse` is 1 (mod 16) while the sequence id embedded in
the control byte of the request frame just written is 0 — they differ,
because the code increments `self._sequence_id` before parsing. -/
theorem claim_C2_counterexample :
    (identifyStep ⟨[], []⟩ 0 0).map
      (fun o => (o.parse_seq % 16, o.req_msg.getD 1 0 &&& 0x0F)) = .ok (1, 0) ∧
    (1 : Nat) ≠ 0 := by
  decide

/-- Claim C2 as amended: in every iteration of `identify`'s loop, the
expected sequence id passed to `msg_parse` equals (mod 16) one plus the
sequence id embedded in the control byte of the request frame just
written. -/
theorem claim_C2_amended (serial : SimSerial) (s a : Nat) (out : StepOut)
    (h : identifyStep serial s a = .ok out) :
    out.parse_seq % 16 = ((out.req_msg.getD 1 0 &&& 0x0F) + 1) % 16 := by
  obtain ⟨_h1, h2, h3⟩ := identifyStep_shape serial s a out h
  rw [h2, h3, control_and_low _ (and_fifteen_le s), and_fifteen_eq_mod]
  omega

/-- Loop-iteration result of `identifyStep ⟨[], []⟩ 0 0`, used as the
concrete instance for the amended C2. -/
def c2out : StepOut :=
  { serial := ⟨[], []⟩, sequence_id := 1, address := 40,
    req_msg := [8, 16, 1, 0, 40, 94, 159, 126], parse_seq := 1,
    resp := .error .indexError }

/-- Witness for the amended C2 at the first iteration from the initial
session state. -/
theorem claim_C2_witness :
    c2out.parse_seq % 16 = ((c2out.req_msg.getD 1 0 &&& 0x0F) + 1) % 16 :=
  claim_C2_amended ⟨[], []⟩ 0 0 c2out (by decide)

/-- Claim C9 counterexample: the stored sequence counter does not stay in
`[0, 15]`: one request issued from the legal session state
`_sequence_id = 15` leaves the counter at 16 (the code runs
`self._sequence_id += 1` with no masking; state 15 is itself reached after
15 requests from the initial state 0). -/
theorem claim_C9_counterexample :
    (identifyStep ⟨[], []⟩ 15 0).map (fun o => o.sequence_id) = .ok 16 ∧ ¬ (16 ≤ 15) := by
  decide

/-- Claim C9 as amended: the counter is incremented exactly once per
request issued, with no modulo-16 wrap of the stored state; the 4-bit
masking is applied only where the counter is used, so the sequence id
embedded in the request frame's control byte is the counter mod 16 while
the stored counter itself grows beyond 15. -/
theorem claim_C9_amended (serial : SimSerial) (s a : Nat) (out : StepOut)
    (h : identifyStep serial s a = .ok out) :
    out.sequence_id = s + 1 ∧ out.req_msg.getD 1 0 &&& 0x0F = s % 16 := by
  obtain ⟨h1, _h2, h3⟩ := identifyStep_shape serial s a out h
  refine ⟨h1, ?_⟩
  rw [h3, control_and_low _ (and_fifteen_le s), and_fifteen_eq_mod]

/-- Loop-iteration result of `identifyStep ⟨[], []⟩ 15 0`, used as the
concrete instance for the amended C9. -/
def c9out : StepOut :=
  { serial := ⟨[], []⟩, sequence_id := 16, address := 40,
    req_msg := [8, 31, 1, 0, 40, 236, 102, 126], parse_seq := 16,
    resp := .error .indexError }

/-- Witness for the amended C9 at one request issued from session state
15. -/
theorem claim_C9_witness :
    c9out.sequence_id = 15 + 1 ∧ c9out.req_msg.getD 1 0 &&& 0x0F = 15 % 16 :=
  claim_C9_amended ⟨[], []⟩ 15 0 c9out (by decide)

/-! ### Claims C3, C6: the paged-read loop -/

/-- Claim C3 counterexample: served a valid response whose payload carries
41 new data bytes (41 ≥ 0x28), the loop does not repeat: it exits after
the single request, because the code's exit test is
`len(msg_resp) + 5 - len(req_msg) != 0x28`, not `< 0x28`. -/
theorem claim_C3_counterexample :
    identifyPages 2 ⟨[frameOf (List.replicate 44 0) 1], []⟩ 0 0 [] 0 =
      .ok (some (List.replicate 41 0, 1, 1, 0x28)) ∧ 0x28 ≤ 41 := by
  constructor
  · have r1 := identifyPages_round 1 [] [] [] (List.replicate 44 0) 0 0 0
      (by decide) (by decide)
    show identifyPages (1 + 1) ⟨frameOf (List.replicate 44 0) (0 + 1) :: [], []⟩ 0 0 [] 0 =
      .ok (some (List.replicate 41 0, 1, 1, 0x28))
    rw [r1, if_pos (by decide)]
    decide
  · decide

/-- Claim C3 as amended: one served round of `identify`'s loop exits
exactly when the number of newly received data bytes (the response payload
`q` minus the `len(req_msg) - 5` echoed bytes) differs from the requested
chunk size 0x28 — also when it exceeds 0x28 — and repeats exactly when it
equals 0x28. -/
theorem claim_C3_amended (fuel : Nat) (pend : List (List Nat)) (inp data q : List Nat)
    (s a rounds : Nat)
    (hreq : ([0x01] ++ vlq_pack (a : Int) ++ [0x28]).length ≤ 250)
    (hq : q.length ≤ 250) :
    identifyPages (fuel + 1) ⟨frameOf q (s + 1) :: pend, inp⟩ s a data rounds =
      if (q.length : Int) - (([0x01] ++ vlq_pack (a : Int) ++ [0x28]).length : Int) ≠ 0x28 then
        .ok (some (data ++ q.drop ([0x01] ++ vlq_pack (a : Int) ++ [0x28]).length,
          rounds + 1, s + 1, a + 0x28))
      else
        identifyPages fuel ⟨pend, []⟩ (s + 1) (a + 0x28)
          (data ++ q.drop ([0x01] ++ vlq_pack (a : Int) ++ [0x28]).length) (rounds + 1) :=
  identifyPages_round fuel pend inp data q s a rounds hreq hq

/-- Witness for the amended C3 at the concrete one-response scenario with
41 new data bytes. -/
theorem claim_C3_witness :
    identifyPages (0 + 1) ⟨frameOf (List.replicate 44 0) (0 + 1) :: [], []⟩ 0 0 [] 0 =
      if ((List.replicate 44 (0 : Nat)).length : Int) -
          (([0x01] ++ vlq_pack ((0 : Nat) : Int) ++ [0x28]).length : Int) ≠ 0x28 then
        .ok (some (([] : List Nat) ++
          (List.replicate 44 0).drop ([0x01] ++ vlq_pack ((0 : Nat) : Int) ++ [0x28]).length,
          0 + 1, 0 + 1, 0 + 0x28))
      else
        identifyPages 0 ⟨[], []⟩ (0 + 1) (0 + 0x28)
          (([] : List Nat) ++
            (List.replicate 44 0).drop ([0x01] ++ vlq_pack ((0 : Nat) : Int) ++ [0x28]).length)
          (0 + 1) :=
  claim_C3_amended 0 [] [] [] (List.replicate 44 0) 0 0 0 (by decide) (by decide)

/-- Claim C6: if the simulated transport serves, for three sequential
requests, valid response frames whose payloads carry 40, 40 and 10 new
data bytes respectively (each response payload preceded by an echo of the
request's framing overhead, its first `len(req_msg) - 5 = 3` bytes), then
`identify`'s accumulation buffer holds exactly 90 bytes when the loop
exits, and the loop terminates after the third request. -/
theorem claim_C6_identify_session (e1 p1 e2 p2 e3 p3 : List Nat)
    (he1 : e1.length = 3) (hp1 : p1.length = 40)
    (he2 : e2.length = 3) (hp2 : p2.length = 40)
    (he3 : e3.length = 3) (hp3 : p3.length = 10) :
    identifyPages 5 ⟨[frameOf (e1 ++ p1) 1, frameOf (e2 ++ p2) 2, frameOf (e3 ++ p3) 3], []⟩
        0 0 [] 0 = .ok (some (p1 ++ (p2 ++ p3), 3, 3, 120)) ∧
    (p1 ++ (p2 ++ p3)).length = 90 := by
  have l0 : ([0x01] ++ vlq_pack ((0 : Nat) : Int) ++ [0x28]).length = 3 := by decide
  have l40 : ([0x01] ++ vlq_pack ((40 : Nat) : Int) ++ [0x28]).length = 3 := by decide
  have l80 : ([0x01] ++ vlq_pack ((80 : Nat) : Int) ++ [0x28]).length = 3 := by decide
  constructor
  · have r1 := identifyPages_round 4 [frameOf (e2 ++ p2) 2, frameOf (e3 ++ p3) 3] []
      [] (e1 ++ p1) 0 0 0 (by decide) (by simp [List.length_append, he1, hp1])
    show identifyPages (4 + 1)
        ⟨frameOf (e1 ++ p1) (0 + 1) :: [frameOf (e2 ++ p2) 2, frameOf (e3 ++ p3) 3], []⟩
        0 0 [] 0 = .ok (some (p1 ++ (p2 ++ p3), 3, 3, 120))
    rw [r1, if_neg (by
      rw [show (e1 ++ p1).length = 43 from by simp [List.length_append, he1, hp1], l0]
      decide)]
    rw [l0, List.drop_left' he1, List.nil_append]
    have r2 := identifyPages_round 3 [frameOf (e3 ++ p3) 3] [] p1 (e2 ++ p2) 1 40 1
      (by decide) (by simp [List.length_append, he2, hp2])
    show identifyPages (3 + 1) ⟨frameOf (e2 ++ p2) (1 + 1) :: [frameOf (e3 ++ p3) 3], []⟩
        1 40 p1 1 = .ok (some (p1 ++ (p2 ++ p3), 3, 3, 120))
    rw [r2, if_neg (by
      rw [show (e2 ++ p2).length = 43 from by simp [List.length_append, he2, hp2], l40]
      decide)]
    rw [l40, List.drop_left' he2]
    have r3 := identifyPages_round 2 [] [] (p1 ++ p2) (e3 ++ p3) 2 80 2
      (by decide) (by simp [List.length_append, he3, hp3])
    show identifyPages (2 + 1) ⟨frameOf (e3 ++ p3) (2 + 1) :: [], []⟩ 2 80 (p1 ++ p2) 2 =
      .ok (some (p1 ++ (p2 ++ p3), 3, 3, 120))
    rw [r3, if_pos (by
      rw [show (e3 ++ p3).length = 13 from by simp [List.length_append, he3, hp3], l80]
      decide)]
    rw [l80, List.drop_left' he3, List.append_assoc]
  · simp [List.length_append, hp1, hp2, hp3]

/-- Witness for C6: the scripted transport serving three pages of 40, 40
and 10 zero bytes (each behind a 3-byte echo of the request overhead). -/
theorem claim_C6_witness :
    identifyPages 5
      ⟨[frameOf (List.replicate 3 0 ++ List.replicate 40 0) 1,
        frameOf (List.replicate 3 0 ++ List.replicate 40 0) 2,
        frameOf (List.replicate 3 0 ++ List.replicate 10 0) 3], []⟩ 0 0 [] 0 =
      .ok (some (List.replicate 40 0 ++ (List.replicate 40 0 ++ List.replicate 10 0),
        3, 3, 120)) ∧
    (List.replicate 40 (0 : Nat) ++ (List.replicate 40 0 ++ List.replicate 10 0)).length = 90 :=
  claim_C6_identify_session (List.replicate 3 0) (List.replicate 40 0) (List.replicate 3 0)
    (List.replicate 40 0) (List.replicate 3 0) (List.replicate 10 0)
    (by decide) (by decide) (by decide) (by decide) (by decide) (by decide)
